import Mathlib

/-
Shallow embedding of `src/openpype_client/operations.py`: the operation
variants (create / update / delete), their debug and wire renderings, the
operations session with its ready queue and deferral map, and the commit
protocol.  Python dicts are modelled as insertion-ordered association
lists, the `REMOVED_VALUE` sentinel as a dedicated `Value` constructor,
and the nondeterministic uuid generation (`uuid.uuid4`,
`create_entity_id`) by passing the freshly generated identifier as an
explicit argument.  Exceptions are modelled with `Except` / `Option`.
-/

namespace Ayon

/-- Python exceptions that the modelled code can raise. -/
inductive PyErr where
  | valueError
  | typeError
deriving DecidableEq

/-- Values stored in operation payloads and change-sets.  `removed`
models the module-level `REMOVED_VALUE = object()` sentinel, which is
distinct (by identity) from every other value, including `None`
(modelled as `null`).  The claims under study only ever inspect atomic
values, so nested containers are not needed. -/
inductive Value where
  | null
  | bool (b : Bool)
  | int (n : Int)
  | str (s : String)
  | removed
deriving DecidableEq

/-- Lookup in an insertion-ordered dict (`d[k]` / `d.get(k)`). -/
def dictLookup {α : Type} : List (String × α) → String → Option α
  | [], _ => none
  | (k', v) :: rest, k => if k' = k then some v else dictLookup rest k

/-- `d[k] = v` on a Python dict: overwrite in place if the key exists,
otherwise append at the end (insertion order). -/
def dictSet {α : Type} : List (String × α) → String → α → List (String × α)
  | [], k, v => [(k, v)]
  | (k', v') :: rest, k, v =>
    if k' = k then (k, v) :: rest else (k', v') :: dictSet rest k v

/-- `d.pop(k)`'s removal effect: drop the entry with key `k`. -/
def dictRemove {α : Type} : List (String × α) → String → List (String × α)
  | [], _ => []
  | (k', v) :: rest, k =>
    if k' = k then rest else (k', v) :: dictRemove rest k

/-- `collections.defaultdict(list)`: append `v` to the list at key `k`,
creating the entry at the end if the key is absent. -/
def dictAppend {α : Type} : List (String × List α) → String → α → List (String × List α)
  | [], k, v => [(k, [v])]
  | (k', l) :: rest, k, v =>
    if k' = k then (k', l ++ [v]) :: rest else (k', l) :: dictAppend rest k v

/-! ### Model of `uuid.UUID(entity_id)` string parsing

`_create_or_convert_to_id` validates caller-supplied ids by calling the
standard library's `uuid.UUID`, which strips `urn:` / `uuid:` markers,
surrounding braces and dashes, and then requires exactly 32 hexadecimal
digits, raising `ValueError` otherwise. -/

/-- Try to consume the characters `ps` from the front of the input. -/
def dropChars : List Char → List Char → Option (List Char)
  | [], rest => some rest
  | _ :: _, [] => none
  | p :: ps, c :: cs => if c = p then dropChars ps cs else none

/-- Fuelled worker for `removeOcc`. -/
def removeOccAux (p : Char) (ps : List Char) : Nat → List Char → List Char
  | 0, l => l
  | _ + 1, [] => []
  | fuel + 1, c :: cs =>
    if c = p then
      match dropChars ps cs with
      | some rest => removeOccAux p ps fuel rest
      | none => c :: removeOccAux p ps fuel cs
    else c :: removeOccAux p ps fuel cs

/-- Python's `s.replace(pat, "")` for a non-empty pattern `p :: ps`:
delete every (leftmost, non-overlapping) occurrence. -/
def removeOcc (p : Char) (ps : List Char) (l : List Char) : List Char :=
  removeOccAux p ps l.length l

/-- Python's `s.strip("\x7b\x7d")`: drop leading and trailing braces. -/
def stripWrap (l : List Char) : List Char :=
  let isBrace := fun c => c = Char.ofNat 123 || c = Char.ofNat 125
  ((l.dropWhile isBrace).reverse.dropWhile isBrace).reverse

def isHexChar (c : Char) : Bool :=
  c.isDigit
    || (decide ('a' ≤ c) && decide (c ≤ 'f'))
    || (decide ('A' ≤ c) && decide (c ≤ 'F'))

/-- The hex digits `uuid.UUID` extracts from its string argument:
remove `urn:`, then `uuid:`, strip braces, drop dashes. -/
def pyUUIDHex (s : String) : List Char :=
  (stripWrap (removeOcc 'u' "uid:".toList (removeOcc 'u' "rn:".toList s.toList))).filter
    (fun c => !(c = '-'))

/-- `uuid.UUID(s)` succeeds exactly when the extracted digit string has
exactly 32 hex digits. -/
def pyUUIDValid (s : String) : Bool :=
  (pyUUIDHex s).length == 32 && (pyUUIDHex s).all isHexChar

/-- `_create_or_convert_to_id(entity_id)`: generate a fresh id when
`entity_id is None`, otherwise validate it with `uuid.UUID` (raising
`ValueError` on an unparseable id) and return it unchanged.  The fresh
id produced by `create_entity_id()` is passed in explicitly. -/
def createOrConvertToId (freshId : String) : Option String → Except PyErr String
  | none => Except.ok freshId
  | some e => if pyUUIDValid e then Except.ok e else Except.error PyErr.valueError

/-! ### Operation variants -/

/-- `CreateOperation`: `data` is the (deep-copied) payload with an `id`
key guaranteed by the constructor; `opId` is the operation identifier
generated by `AbstractOperation.__init__`. -/
structure CreateOperation where
  opId : String
  projectName : String
  entityType : String
  data : List (String × Value)
deriving DecidableEq

/-- `UpdateOperation`: stores the caller's `entity_id` and `update_data`
verbatim (no validation happens in `__init__`). -/
structure UpdateOperation where
  opId : String
  projectName : String
  entityType : String
  entityId : Value
  updateData : List (String × Value)
deriving DecidableEq

/-- `DeleteOperation`: stores the caller's `entity_id` verbatim. -/
structure DeleteOperation where
  opId : String
  projectName : String
  entityType : String
  entityId : Value
deriving DecidableEq

/-- The closed union of recognized operation variants (the session's
`add` type-checks against exactly these three classes). -/
inductive Operation where
  | create (op : CreateOperation)
  | update (op : UpdateOperation)
  | delete (op : DeleteOperation)
deriving DecidableEq

/-- `CreateOperation.__init__`: deep-copy the payload (identity on our
immutable values), inject a freshly generated entity id when the payload
lacks an `id` key, and record the fresh operation id. -/
def mkCreateOperation (projectName entityType : String)
    (data : List (String × Value)) (freshEntityId freshOpId : String) :
    CreateOperation :=
  let d :=
    match dictLookup data "id" with
    | some _ => data
    | none => dictSet data "id" (Value.str freshEntityId)
  { opId := freshOpId, projectName := projectName, entityType := entityType,
    data := d }

/-- `UpdateOperation.__init__`: stores all arguments verbatim. -/
def mkUpdateOperation (projectName entityType : String) (entityId : Value)
    (updateData : List (String × Value)) (freshOpId : String) :
    UpdateOperation :=
  { opId := freshOpId, projectName := projectName, entityType := entityType,
    entityId := entityId, updateData := updateData }

/-- `DeleteOperation.__init__`: stores all arguments verbatim. -/
def mkDeleteOperation (projectName entityType : String) (entityId : Value)
    (freshOpId : String) : DeleteOperation :=
  { opId := freshOpId, projectName := projectName, entityType := entityType,
    entityId := entityId }

/-- `CreateOperation.entity_id` property: `self._data["id"]` (the
constructor guarantees the key, hence `some` for constructed values). -/
def CreateOperation.entityId (op : CreateOperation) : Option Value :=
  dictLookup op.data "id"

def Operation.opId : Operation → String
  | .create op => op.opId
  | .update op => op.opId
  | .delete op => op.opId

def Operation.projectName : Operation → String
  | .create op => op.projectName
  | .update op => op.projectName
  | .delete op => op.projectName

/-! ### Renderings -/

/-- The loop shared by `UpdateOperation.to_data` and
`UpdateOperation.to_server_operation`: substitute `None` for the
`REMOVED_VALUE` sentinel, keeping every key. -/
def renderChanges (cs : List (String × Value)) : List (String × Value) :=
  cs.map (fun kv => (kv.1, if kv.2 = Value.removed then Value.null else kv.2))

/-- The debug rendering produced by the `to_data` methods: the base
fields from `AbstractOperation.to_data` plus the variant fields (absent
fields are `none`). -/
structure OpData where
  id : String
  entityType : String
  projectName : String
  operation : String
  data : Option (List (String × Value))
  entityId : Option Value
  changes : Option (List (String × Value))
deriving DecidableEq

def createToData (op : CreateOperation) : OpData :=
  { id := op.opId, entityType := op.entityType, projectName := op.projectName,
    operation := "create", data := some op.data, entityId := none,
    changes := none }

def updateToData (op : UpdateOperation) : OpData :=
  { id := op.opId, entityType := op.entityType, projectName := op.projectName,
    operation := "update", data := none, entityId := some op.entityId,
    changes := some (renderChanges op.updateData) }

def deleteToData (op : DeleteOperation) : OpData :=
  { id := op.opId, entityType := op.entityType, projectName := op.projectName,
    operation := "delete", data := none, entityId := some op.entityId,
    changes := none }

def Operation.toData : Operation → OpData
  | .create op => createToData op
  | .update op => updateToData op
  | .delete op => deleteToData op

/-- A wire payload as produced by `to_server_operation` (`data` is
absent for delete operations). -/
structure ServerOp where
  id : String
  type : String
  entityType : String
  entityId : Option Value
  data : Option (List (String × Value))
deriving DecidableEq

def CreateOperation.toServerOperation (op : CreateOperation) : ServerOp :=
  { id := op.opId, type := "create", entityType := op.entityType,
    entityId := op.entityId, data := some op.data }

/-- `UpdateOperation.to_server_operation`: `None` (no wire form) when
the change-set is empty. -/
def UpdateOperation.toServerOperation (op : UpdateOperation) : Option ServerOp :=
  match op.updateData with
  | [] => none
  | _ :: _ =>
    some { id := op.opId, type := "update", entityType := op.entityType,
           entityId := some op.entityId,
           data := some (renderChanges op.updateData) }

def DeleteOperation.toServerOperation (op : DeleteOperation) : ServerOp :=
  { id := op.opId, type := "delete", entityType := op.entityType,
    entityId := some op.entityId, data := none }

def Operation.toServerOperation : Operation → Option ServerOp
  | .create op => some op.toServerOperation
  | .update op => op.toServerOperation
  | .delete op => some op.toServerOperation

/-! ### The operations session -/

/-- `OperationsSession` state: the ready queue `_operations` and the
deferral map `_nested_operations` (a `defaultdict(list)` keyed by a
parent operation's id).  The connection and project cache play no part
in the queue/commit logic under study. -/
structure Session where
  operations : List Operation
  nestedOperations : List (String × List Operation)
deriving DecidableEq

def emptySession : Session := { operations := [], nestedOperations := [] }

/-- `OperationsSession.add`: appends to the ready queue.  The isinstance
check can only fail for non-operation arguments, which the `Operation`
type excludes, so the `TypeError` branch is unrepresentable here.  Note
that `add` does not touch the deferral map. -/
def sessionAdd (s : Session) (op : Operation) : Session :=
  { s with operations := s.operations ++ [op] }

/-- `OperationsSession.extend`: `add` each operation in order. -/
def sessionExtend (s : Session) (ops : List Operation) : Session :=
  ops.foldl sessionAdd s

/-- `OperationsSession.remove`: `list.remove` semantics — delete the
first occurrence, raise `ValueError` when the operation is absent. -/
def sessionRemove (s : Session) (op : Operation) : Except PyErr Session :=
  if op ∈ s.operations then
    Except.ok { s with operations := s.operations.erase op }
  else Except.error PyErr.valueError

/-- `OperationsSession.clear`: empty the ready queue only. -/
def sessionClear (s : Session) : Session := { s with operations := [] }

/-- The tail shared by `create_entity` / `update_entity` /
`delete_entity` on the non-deferred path: `self.add(operation)` followed
by flushing any deferral entry keyed by the freshly created operation's
id (pop the entry, then `extend` with its list). -/
def flushAfterAdd (s : Session) (op : Operation) : Session :=
  let s1 := sessionAdd s op
  match dictLookup s1.nestedOperations op.opId with
  | some deferred =>
    sessionExtend
      { s1 with nestedOperations := dictRemove s1.nestedOperations op.opId }
      deferred
  | none => s1

/-- `OperationsSession.create_entity`: build the operation; when a
truthy `nested_id` is given, defer it under that id, otherwise add it
and flush.  (`if nested_id:` is Python truthiness, so an empty string
behaves like `None`.) -/
def createEntity (s : Session) (projectName entityType : String)
    (data : List (String × Value)) (freshEntityId freshOpId : String)
    (nestedId : Option String) : Session × CreateOperation :=
  let op := mkCreateOperation projectName entityType data freshEntityId freshOpId
  match nestedId with
  | some nid =>
    if nid = "" then (flushAfterAdd s (.create op), op)
    else
      ({ s with nestedOperations := dictAppend s.nestedOperations nid (.create op) },
        op)
  | none => (flushAfterAdd s (.create op), op)

/-- `OperationsSession.update_entity`. -/
def updateEntity (s : Session) (projectName entityType : String)
    (entityId : Value) (updateData : List (String × Value))
    (freshOpId : String) (nestedId : Option String) :
    Session × UpdateOperation :=
  let op := mkUpdateOperation projectName entityType entityId updateData freshOpId
  match nestedId with
  | some nid =>
    if nid = "" then (flushAfterAdd s (.update op), op)
    else
      ({ s with nestedOperations := dictAppend s.nestedOperations nid (.update op) },
        op)
  | none => (flushAfterAdd s (.update op), op)

/-- `OperationsSession.delete_entity`. -/
def deleteEntity (s : Session) (projectName entityType : String)
    (entityId : Value) (freshOpId : String) (nestedId : Option String) :
    Session × DeleteOperation :=
  let op := mkDeleteOperation projectName entityType entityId freshOpId
  match nestedId with
  | some nid =>
    if nid = "" then (flushAfterAdd s (.delete op), op)
    else
      ({ s with nestedOperations := dictAppend s.nestedOperations nid (.delete op) },
        op)
  | none => (flushAfterAdd s (.delete op), op)

/-! ### The commit protocol -/

/-- One entry of a response's per-operation breakdown
(`{"id": ..., "success": ..., "error": ...}`). -/
structure OpResult where
  id : String
  success : Bool
  error : String
deriving DecidableEq

/-- A partition response's decoded body (`result.data`): the overall
success flag (`result.get("success")` truthiness) and the optional
`"operations"` breakdown. -/
structure ResultData where
  success : Bool
  operations : Option (List OpResult)
deriving DecidableEq

/-- The exceptions `commit` can raise while interpreting results:
`FailedOperations` with the raw response, `FailedOperations` with an
operation id / the sent payload / the server error message, or the
`KeyError` that `body_by_id[operation_id]` would raise for an id that
was never sent. -/
inductive CommitError where
  | failedGeneric (result : ResultData)
  | failedOperation (opId : String) (body : ServerOp) (errorMsg : String)
  | keyError (opId : String)
deriving DecidableEq

/-- What one `self._con.post(...)` call yields: the decoded response
body, plus any operations that caller code reached from inside the
transport (e.g. a response callback) adds to the session during the
call. -/
structure TransportResponse where
  result : ResultData
  addedOps : List Operation
deriving DecidableEq

/-- The transport collaborator: project name and rendered operation
bodies in, response out. -/
abbrev Transport := String → List ServerOp → TransportResponse

/-- `group by project` (`defaultdict(list)` keyed by
`operation.project_name`, iterated in first-occurrence order). -/
def groupByProject (ops : List Operation) : List (String × List Operation) :=
  ops.foldl (fun acc op => dictAppend acc op.projectName op) []

/-- The rendered (non-`None`) wire bodies of a partition, in order. -/
def renderOps (ops : List Operation) : List ServerOp :=
  ops.filterMap Operation.toServerOperation

/-- The `body_by_id` entries contributed by a partition. -/
def bodiesById (ops : List Operation) : List (String × ServerOp) :=
  ops.filterMap (fun op => (Operation.toServerOperation op).map (fun b => (op.opId, b)))

/-- `op_result` scan of one partition result (`commit`'s second loop
body): accept on overall success; raise generic failure when the
breakdown is missing; otherwise raise on the first entry whose success
flag is false, looking up the sent payload in `body_by_id`. -/
def interpretResult (bodyById : List (String × ServerOp)) (r : ResultData) :
    Option CommitError :=
  if r.success then none
  else
    match r.operations with
    | none => some (CommitError.failedGeneric r)
    | some l =>
      match l.find? (fun o => !o.success) with
      | none => none
      | some o =>
        match dictLookup bodyById o.id with
        | some body => some (CommitError.failedOperation o.id body o.error)
        | none => some (CommitError.keyError o.id)

/-- `commit`'s second loop: the first error raised, if any. -/
def interpretResults (bodyById : List (String × ServerOp)) :
    List ResultData → Option CommitError
  | [] => none
  | r :: rs =>
    match interpretResult bodyById r with
    | some e => some e
    | none => interpretResults bodyById rs

/-- Accumulated state of `commit`'s first loop. -/
structure LoopState where
  bodyById : List (String × ServerOp)
  posts : List (String × List ServerOp)
  results : List ResultData
  sess : Session

/-- `commit`'s first loop over the project partitions: render each
partition, skip it when every operation rendered to nothing, otherwise
post it (threading through the operations that transport callbacks add
to the live session) and record the response. -/
def commitLoop (t : Transport) :
    List (String × List Operation) → Session → LoopState
  | [], sess => { bodyById := [], posts := [], results := [], sess := sess }
  | (pname, ops) :: rest, sess =>
    if renderOps ops = [] then commitLoop t rest sess
    else
      let resp := t pname (renderOps ops)
      let st := commitLoop t rest
        { sess with operations := sess.operations ++ resp.addedOps }
      { bodyById := bodiesById ops ++ st.bodyById,
        posts := (pname, renderOps ops) :: st.posts,
        results := resp.result :: st.results,
        sess := st.sess }

/-- What a `commit` call produces: the session state it leaves behind,
the network requests it made (in order), and the error it raised, if
any.  (A Python exception leaves the already-performed mutations in
place, so the final session state is meaningful in the error case
too.) -/
structure CommitOutcome where
  session : Session
  posts : List (String × List ServerOp)
  error : Option CommitError
deriving DecidableEq

/-- `OperationsSession.commit`: detach the ready queue (swap with an
empty list), return immediately when it was empty, otherwise partition
by project, post every partition with a non-empty rendered body, and
then interpret the collected results. -/
def commit (s : Session) (t : Transport) : CommitOutcome :=
  if s.operations = [] then
    { session := { s with operations := [] }, posts := [], error := none }
  else
    let st := commitLoop t (groupByProject s.operations)
      { s with operations := [] }
    { session := st.sess, posts := st.posts,
      error := interpretResults st.bodyById st.results }

/-- The network requests `commit` performs, as a function of the
detached queue alone: the non-empty rendered partition bodies, in
partition order. -/
def postSpecEntry (g : String × List Operation) :
    Option (String × List ServerOp) :=
  if renderOps g.2 = [] then none else some (g.1, renderOps g.2)

def postsSpec (ops : List Operation) : List (String × List ServerOp) :=
  (groupByProject ops).filterMap postSpecEntry

/-- Helper used to state claims about all-successful breakdowns: a
breakdown entry whose success flag is true. -/
def mkOkResult (q : String × String) : OpResult :=
  { id := q.1, success := true, error := q.2 }

/-! ### Concrete scenarios used by counterexamples and witnesses -/

/-- A child operation deferred under the parent operation id `"pid"`. -/
def c1Child : Operation :=
  .delete (mkDeleteOperation "proj" "folder" (Value.str "e1") "cid")

/-- The session after `delete_entity(..., nested_id="pid")` deferred
`c1Child`. -/
def c1Deferred : Session :=
  (deleteEntity emptySession "proj" "folder" (Value.str "e1") "cid"
    (some "pid")).1

/-- A parent operation whose operation id is the deferral key `"pid"`. -/
def c1Parent : Operation :=
  .delete (mkDeleteOperation "proj" "folder" (Value.str "e2") "pid")

/-- The session immediately after `add(c1Parent)`. -/
def c1After : Session := sessionAdd c1Deferred c1Parent

/-- A delete operation on project `"A"`. -/
def opA : Operation :=
  .delete (mkDeleteOperation "A" "folder" (Value.str "ea") "ida")

/-- A delete operation on project `"B"`. -/
def opB : Operation :=
  .delete (mkDeleteOperation "B" "folder" (Value.str "eb") "idb")

/-- The wire body of `opA`. -/
def soA : ServerOp :=
  { id := "ida", type := "delete", entityType := "folder",
    entityId := some (Value.str "ea"), data := none }

/-- The wire body of `opB`. -/
def soB : ServerOp :=
  { id := "idb", type := "delete", entityType := "folder",
    entityId := some (Value.str "eb"), data := none }

/-- A session holding one operation for project `"A"` followed by one
for project `"B"`. -/
def sAB : Session := { operations := [opA, opB], nestedOperations := [] }

/-- A transport whose response for project `"A"` reports the failure of
operation `"ida"` and whose response for every other project succeeds. -/
def tFailA : Transport := fun p _body =>
  if p = "A" then
    { result := { success := false,
                  operations := some [{ id := "ida", success := false,
                                        error := "boom" }] },
      addedOps := [] }
  else { result := { success := true, operations := none }, addedOps := [] }

/-- A session holding just `opA`, for exercising `remove`. -/
def sOnlyA : Session := { operations := [opA], nestedOperations := [] }

/-! ### Helper lemmas -/

lemma commitLoop_posts (t : Transport) (l : List (String × List Operation)) :
    ∀ sess, (commitLoop t l sess).posts = l.filterMap postSpecEntry := by
  induction l with
  | nil => intro sess; rfl
  | cons g rest ih =>
    intro sess
    obtain ⟨pname, ops⟩ := g
    by_cases hb : renderOps ops = []
    · simp [commitLoop, hb, postSpecEntry, ih]
    · simp [commitLoop, hb, postSpecEntry, ih]

lemma commitLoop_operations (t : Transport)
    (l : List (String × List Operation)) :
    ∀ sess, (commitLoop t l sess).sess.operations
      = sess.operations
        ++ ((l.filterMap postSpecEntry).map
              (fun pb => (t pb.1 pb.2).addedOps)).flatten := by
  induction l with
  | nil => intro sess; simp [commitLoop]
  | cons g rest ih =>
    intro sess
    obtain ⟨pname, ops⟩ := g
    by_cases hb : renderOps ops = []
    · simp [commitLoop, hb, postSpecEntry, ih]
    · simp [commitLoop, hb, postSpecEntry, ih]

lemma commitLoop_nested (t : Transport)
    (l : List (String × List Operation)) :
    ∀ sess, (commitLoop t l sess).sess.nestedOperations
      = sess.nestedOperations := by
  induction l with
  | nil => intro sess; rfl
  | cons g rest ih =>
    intro sess
    obtain ⟨pname, ops⟩ := g
    by_cases hb : renderOps ops = []
    · simp [commitLoop, hb, ih]
    · simp [commitLoop, hb, ih]

lemma commit_posts_eq (s : Session) (t : Transport) :
    (commit s t).posts = postsSpec s.operations := by
  by_cases h : s.operations = []
  · simp [commit, h, postsSpec, groupByProject]
  · simp [commit, h, postsSpec, commitLoop_posts]

lemma commit_operations_eq (s : Session) (t : Transport) :
    (commit s t).session.operations
      = ((postsSpec s.operations).map
           (fun pb => (t pb.1 pb.2).addedOps)).flatten := by
  by_cases h : s.operations = []
  · simp [commit, h, postsSpec, groupByProject]
  · simp [commit, h, postsSpec, commitLoop_operations]

lemma postsSpec_nonempty (ops : List Operation) :
    (postsSpec ops).all (fun pb => !pb.2.isEmpty) = true := by
  rw [List.all_eq_true]
  intro pb hpb
  rw [postsSpec, List.mem_filterMap] at hpb
  obtain ⟨g, _, hg⟩ := hpb
  rw [postSpecEntry] at hg
  split at hg
  · exact absurd hg (by simp)
  · next hne =>
    cases hg
    cases hr : renderOps g.2 with
    | nil => exact absurd hr hne
    | cons b bs => simp [hr]

lemma dictLookup_dictSet_absent {α : Type} (m : List (String × α))
    (k : String) (v : α) (h : dictLookup m k = none) :
    dictLookup (dictSet m k v) k = some v := by
  induction m with
  | nil => simp [dictSet, dictLookup]
  | cons kv rest ih =>
    obtain ⟨k', v'⟩ := kv
    by_cases hk : k' = k
    · rw [dictLookup, if_pos hk] at h
      exact absurd h (by simp)
    · rw [dictLookup, if_neg hk] at h
      rw [dictSet, if_neg hk, dictLookup, if_neg hk]
      exact ih h

lemma find?_okPrefixSkipped (pre : List (String × String))
    (rest : List OpResult) :
    (pre.map mkOkResult ++ rest).find? (fun o => !o.success)
      = rest.find? (fun o => !o.success) := by
  induction pre with
  | nil => rfl
  | cons q pre ih => simpa [mkOkResult, List.find?] using ih

lemma find?_okList (entries : List (String × String)) :
    (entries.map mkOkResult).find? (fun o => !o.success) = none := by
  simpa using find?_okPrefixSkipped entries []

lemma renderChanges_keys (cs : List (String × Value)) :
    (renderChanges cs).map Prod.fst = cs.map Prod.fst := by
  induction cs with
  | nil => rfl
  | cons kv cs ih => simp [renderChanges] at ih ⊢

/-! ### Claim theorems -/

/-- Claim C1 (code bug): the claim requires that appending a parent
operation flushes the deferral entries keyed by its id, but `add`
performs no flush at all.  Concretely: a child is deferred under the
parent's operation id `"pid"` via `delete_entity(..., nested_id="pid")`,
and immediately after `add(parent)` the ready queue holds only the
parent and the deferral entry is still present, where the claim demands
the queue `[parent, child]` and the entry removed.  (The flush that does
exist, inside the convenience constructors, is keyed by the freshly
generated uuid of the operation just constructed, which no earlier
`nested_id` can have referenced.) -/
theorem add_does_not_flush_deferred :
    c1After.operations = [c1Parent]
  ∧ dictLookup c1After.nestedOperations "pid" = some [c1Child] := by decide

/-- Claim C2: `commit` detaches the ready queue before any network
request: the posted batches are a function of the pre-commit queue
alone; the queue on return holds exactly the operations that transport
callbacks added during the in-flight posts (in order), so those never
enter the current batch and are never lost; and committing an empty
queue performs no network call and raises no error. -/
theorem commit_detaches_queue_before_network (s : Session) (t : Transport) :
    (commit s t).posts = postsSpec s.operations
  ∧ (commit s t).session.operations
      = ((postsSpec s.operations).map
           (fun pb => (t pb.1 pb.2).addedOps)).flatten
  ∧ commit { s with operations := [] } t
      = { session := { s with operations := [] }, posts := [], error := none } := by
  refine ⟨commit_posts_eq s t, commit_operations_eq s t, ?_⟩
  simp [commit]

/-- Claim C3: for a partition response whose overall success flag is
false, a present breakdown is scanned in order and the first entry with
a false success flag determines the raised failure, which carries that
operation's id, the sent payload recorded for that id, and the
server-supplied error message — independent of any later entries; with
no breakdown present, a generic failure carrying the raw response is
raised. -/
theorem commit_reports_first_failed_operation
    (bodyById : List (String × ServerOp)) (pre : List (String × String))
    (oid emsg : String) (l₂ : List OpResult) (body : ServerOp)
    (rs : List ResultData)
    (hb : dictLookup bodyById oid = some body) :
    interpretResults bodyById
        ({ success := false,
           operations := some (pre.map mkOkResult
             ++ { id := oid, success := false, error := emsg } :: l₂) } :: rs)
      = some (CommitError.failedOperation oid body emsg)
  ∧ interpretResults bodyById
        ({ success := false, operations := none } :: rs)
      = some (CommitError.failedGeneric
          { success := false, operations := none }) := by
  constructor
  · have hcons : (({ id := oid, success := false, error := emsg } : OpResult)
        :: l₂).find? (fun o => !o.success)
        = some { id := oid, success := false, error := emsg } := rfl
    have hfull := (find?_okPrefixSkipped pre
      ({ id := oid, success := false, error := emsg } :: l₂)).trans hcons
    simp only [interpretResults, interpretResult, hfull, hb]
    simp
  · rfl

/-- Witness for claim C3 at a concrete three-entry breakdown whose
second entry is the first failure. -/
theorem commit_reports_first_failed_operation_witness :
    interpretResults [("ida", soA)]
        ({ success := false,
           operations := some ([("p1", "ok")].map mkOkResult
             ++ { id := "ida", success := false, error := "boom" }
                :: [{ id := "idc", success := false, error := "later" }]) }
          :: [])
      = some (CommitError.failedOperation "ida" soA "boom")
  ∧ interpretResults [("ida", soA)]
        ({ success := false, operations := none } :: ([] : List ResultData))
      = some (CommitError.failedGeneric
          { success := false, operations := none }) :=
  commit_reports_first_failed_operation [("ida", soA)] [("p1", "ok")] "ida"
    "boom" [{ id := "idc", success := false, error := "later" }] soA []
    (by decide)

/-- Counterexample to claim C4: `"not-a-uuid"` is not parseable as a
UUID, yet the Update, Delete and Create constructors accept it silently
and store it verbatim — no identifier-format error is raised at
construction time (the constructors contain no validation at all). -/
theorem operation_ctor_accepts_invalid_id :
    pyUUIDValid "not-a-uuid" = false
  ∧ (mkUpdateOperation "proj" "folder" (Value.str "not-a-uuid")
       [("name", Value.str "x")] "op1").entityId = Value.str "not-a-uuid"
  ∧ (mkDeleteOperation "proj" "folder" (Value.str "not-a-uuid")
       "op2").entityId = Value.str "not-a-uuid"
  ∧ (mkCreateOperation "proj" "folder" [("id", Value.str "not-a-uuid")]
       "fresh" "op3").entityId = some (Value.str "not-a-uuid") := by decide

/-- Claim C4 as amended: operation construction performs no entity-id
validation — Update and Delete store any caller-supplied id verbatim and
never raise; UUID validation (`uuid.UUID` inside
`_create_or_convert_to_id`) happens only in the entity-skeleton helpers,
not in operation construction. -/
theorem operation_ctor_no_id_validation (p et : String) (eid : Value)
    (ud : List (String × Value)) (oid fresh other : String) :
    (mkUpdateOperation p et eid ud oid).entityId = eid
  ∧ (mkDeleteOperation p et eid oid).entityId = eid
  ∧ createOrConvertToId fresh none = Except.ok fresh
  ∧ createOrConvertToId fresh (some other)
      = (if pyUUIDValid other then Except.ok other
         else Except.error PyErr.valueError) :=
  ⟨rfl, rfl, rfl, rfl⟩

/-- Counterexample to claim C5: with one operation for project `"A"`
followed by one for project `"B"`, and a transport that fails the
`"A"` partition's response, `commit` still submits the `"B"` partition —
both network requests are made even though the commit call errors on
partition `"A"`'s response (all posts happen before any response is
inspected). -/
theorem commit_submits_later_partition_after_failure :
    (commit sAB tFailA).posts = [("A", [soA]), ("B", [soB])]
  ∧ (commit sAB tFailA).error
      = some (CommitError.failedOperation "ida" soA "boom") := by decide

/-- Claim C5 as amended: `commit` submits every partition with a
non-empty rendered body before inspecting any response — the set of
network requests depends only on the detached queue, never on any
response — and a failure observed while interpreting one partition's
response aborts the call at that point, so later partitions' results are
not reported (their requests were already made). -/
theorem commit_submits_all_partitions_then_reports_first (s : Session)
    (t : Transport) (bodyById : List (String × ServerOp))
    (rs : List ResultData) :
    (commit s t).posts = postsSpec s.operations
  ∧ interpretResults bodyById
        ({ success := false, operations := none } :: rs)
      = some (CommitError.failedGeneric
          { success := false, operations := none }) :=
  ⟨commit_posts_eq s t, rfl⟩

/-- Claim C6: an Update with an empty change-set has no wire rendering,
is dropped from a partition's submission while the surrounding
operations keep their relative order, still occupies its position in the
ready queue when added, and no partition whose every operation rendered
to nothing is ever posted (every posted body list is non-empty). -/
theorem empty_update_dropped_but_queued (oid p et : String) (eid : Value)
    (s : Session) (t : Transport) (l₁ l₂ : List Operation) :
    Operation.toServerOperation
        (.update (mkUpdateOperation p et eid [] oid)) = none
  ∧ renderOps (l₁ ++ .update (mkUpdateOperation p et eid [] oid) :: l₂)
      = renderOps (l₁ ++ l₂)
  ∧ (sessionAdd s (.update (mkUpdateOperation p et eid [] oid))).operations
      = s.operations ++ [.update (mkUpdateOperation p et eid [] oid)]
  ∧ (commit s t).posts.all (fun pb => !pb.2.isEmpty) = true := by
  refine ⟨rfl, ?_, rfl, ?_⟩
  · simp [renderOps, Operation.toServerOperation, mkUpdateOperation,
      UpdateOperation.toServerOperation]
  · rw [commit_posts_eq]
    exact postsSpec_nonempty s.operations

/-- Claim C7: a field-removal marker in an Update's change-set renders
as an explicit null in both the debug rendering (`to_data`) and the wire
rendering (`to_server_operation`), and no key is ever omitted from the
rendered change-set. -/
theorem removed_value_renders_null (oid p et : String) (eid : Value)
    (k : String) (cs₁ cs₂ : List (String × Value)) :
    (updateToData
        (mkUpdateOperation p et eid (cs₁ ++ (k, Value.removed) :: cs₂)
          oid)).changes
      = some (renderChanges (cs₁ ++ (k, Value.removed) :: cs₂))
  ∧ (k, Value.null) ∈ renderChanges (cs₁ ++ (k, Value.removed) :: cs₂)
  ∧ (renderChanges (cs₁ ++ (k, Value.removed) :: cs₂)).map Prod.fst
      = (cs₁ ++ (k, Value.removed) :: cs₂).map Prod.fst
  ∧ ∃ so,
      (mkUpdateOperation p et eid (cs₁ ++ (k, Value.removed) :: cs₂)
          oid).toServerOperation = some so
      ∧ so.data = some (renderChanges (cs₁ ++ (k, Value.removed) :: cs₂)) := by
  refine ⟨rfl, ?_, renderChanges_keys _, ?_⟩
  · simp [renderChanges]
  · cases cs₁ with
    | nil => exact ⟨_, rfl, rfl⟩
    | cons c cs => exact ⟨_, rfl, rfl⟩

/-- Claim C8: a Create operation's entity id is fixed at construction
(taken from the payload's `id` key when present, otherwise freshly
generated and injected), and the wire rendering's entity-id field, the
wire rendering's data-map `id` field, and the debug rendering's data-map
`id` field all equal that one value. -/
theorem create_entity_id_consistent (p et : String)
    (data : List (String × Value)) (fE fO : String) :
    (mkCreateOperation p et data fE fO).entityId
      = some ((dictLookup data "id").getD (Value.str fE))
  ∧ (mkCreateOperation p et data fE fO).toServerOperation.entityId
      = (mkCreateOperation p et data fE fO).entityId
  ∧ (mkCreateOperation p et data fE fO).toServerOperation.data
      = some (mkCreateOperation p et data fE fO).data
  ∧ dictLookup
        (((createToData (mkCreateOperation p et data fE fO)).data).getD [])
        "id"
      = (mkCreateOperation p et data fE fO).entityId := by
  refine ⟨?_, rfl, rfl, rfl⟩
  rw [mkCreateOperation, CreateOperation.entityId]
  cases h : dictLookup data "id" with
  | none => simp [h, dictLookup_dictSet_absent data "id" _ h]
  | some w => simp [h]

/-- Claim C9: a partition response whose overall success flag is false
but whose breakdown contains only successful entries raises no error —
`commit`'s interpretation skips it exactly as it skips a successful
partition. -/
theorem false_flag_all_ok_breakdown_no_error
    (entries : List (String × String)) (bodyById : List (String × ServerOp))
    (rs : List ResultData) :
    interpretResult bodyById
        { success := false, operations := some (entries.map mkOkResult) }
      = none
  ∧ interpretResults bodyById
        ({ success := false, operations := some (entries.map mkOkResult) }
          :: rs)
      = interpretResults bodyById rs := by
  have h : interpretResult bodyById
      { success := false, operations := some (entries.map mkOkResult) }
      = none := by
    have hf := find?_okList entries
    simp only [interpretResult, hf]
    simp
  exact ⟨h, by simp [interpretResults, h]⟩

/-- Claim C10: `remove` on an operation absent from the ready queue
raises `ValueError` (the session is left untouched, the raise happening
before any mutation); on a present operation it removes exactly the
first occurrence and leaves the deferral map unchanged. -/
theorem session_remove_spec (s : Session) (op : Operation) :
    (op ∈ s.operations →
        sessionRemove s op
            = Except.ok { s with operations := s.operations.erase op }
      ∧ ({ s with operations := s.operations.erase op } : Session).nestedOperations
            = s.nestedOperations
      ∧ (s.operations.erase op).length + 1 = s.operations.length
      ∧ (s.operations.erase op).count op + 1 = s.operations.count op)
  ∧ (op ∉ s.operations →
      sessionRemove s op = Except.error PyErr.valueError) := by
  constructor
  · intro h
    refine ⟨by simp [sessionRemove, h], rfl, ?_, ?_⟩
    · have h1 := List.length_erase_of_mem h
      have h2 : 0 < s.operations.length := List.length_pos_of_mem h
      omega
    · have h1 := List.count_erase_self op s.operations
      have h2 : 0 < s.operations.count op := List.count_pos_iff.mpr h
      omega
  · intro h
    simp [sessionRemove, h]

/-- Witness for claim C10: removing the only queued operation succeeds
and erases it; removing it from an empty session raises `ValueError`. -/
theorem session_remove_spec_witness :
    sessionRemove sOnlyA opA
        = Except.ok { sOnlyA with operations := sOnlyA.operations.erase opA }
  ∧ sessionRemove emptySession opA = Except.error PyErr.valueError :=
  ⟨((session_remove_spec sOnlyA opA).1 (by decide)).1,
   (session_remove_spec emptySession opA).2 (by decide)⟩

end Ayon
